import Mathlib

/-! TLEXC (`tlexc.hpp`): error taxonomy and error presenter.

A shallow embedding of the single header `src/tlexc.hpp`.

* C strings (`const char*`) are modelled by their contents, a `String` read up to the
  terminating NUL; `std::string` values are `String`s that may contain NUL characters.
* The effects of the presenter are made explicit by passing a `World`: the text written
  to standard output, the pending standard input, the external calls issued (toolkit,
  operating system, shell) and the number of dialogs that became visible.
* The toolkits, the operating system and the shell are not part of the header; their
  reactions are supplied by an `Env`.
* The `#if / #elif` chain that selects one `ShowErrGUI` body is `selectBackend`.
-/

namespace TLEXC

/-! ## Strings -/

/-- The contents of the C string stored in a `std::string`: everything before the first
NUL character (`std::string::c_str()` read as a `const char*`). -/
def c_str (s : String) : String := ⟨s.data.takeWhile (fun c => c != Char.ofNat 0)⟩

/-! ## Error taxonomy (`tlexc.hpp` lines 11-74) -/

/-- The class `std::exception`: the only member the header uses is `what()`, a C string. -/
structure exception where
  what : String
deriving DecidableEq, Repr

/-- The constructor `std::runtime_error(const std::string&)`: `what()` returns the stored message as a
C string. -/
def runtime_error (message : String) : exception := ⟨c_str message⟩

/-- The eight concrete classes derived from `titled_generic_error`. -/
inductive ErrorClass
  | init_error
  | mloop_error
  | render_error
  | networking_error
  | sdl_error
  | opengl_error
  | dirctx_error
  | vulkan_error
deriving DecidableEq, Repr

/-- The `class titled_generic_error : public std::runtime_error`: the dynamic class (which
selects the override of `title()`) and the `std::runtime_error` base object. -/
structure titled_generic_error where
  cls : ErrorClass
  base : exception
deriving DecidableEq, Repr

/-- The protected constructor `titled_generic_error(message) : std::runtime_error(message)`,
reached through the constructor of the concrete class `cls`. -/
def titled_generic_error.mk_from (cls : ErrorClass) (message : String) :
    titled_generic_error :=
  ⟨cls, runtime_error message⟩

/-- The constructor `init_error(message)`. -/
def init_error (message : String) : titled_generic_error :=
  titled_generic_error.mk_from .init_error message

/-- The constructor `mloop_error(message)`. -/
def mloop_error (message : String) : titled_generic_error :=
  titled_generic_error.mk_from .mloop_error message

/-- The constructor `render_error(message)`. -/
def render_error (message : String) : titled_generic_error :=
  titled_generic_error.mk_from .render_error message

/-- The constructor `networking_error(message)`. -/
def networking_error (message : String) : titled_generic_error :=
  titled_generic_error.mk_from .networking_error message

/-- The constructor `sdl_error(message)`. -/
def sdl_error (message : String) : titled_generic_error :=
  titled_generic_error.mk_from .sdl_error message

/-- The constructor `opengl_error(message)`. -/
def opengl_error (message : String) : titled_generic_error :=
  titled_generic_error.mk_from .opengl_error message

/-- The constructor `dirctx_error(message)`. -/
def dirctx_error (message : String) : titled_generic_error :=
  titled_generic_error.mk_from .dirctx_error message

/-- The constructor `vulkan_error(message)`. -/
def vulkan_error (message : String) : titled_generic_error :=
  titled_generic_error.mk_from .vulkan_error message

/-- The constructor of each concrete class, by class. -/
def construct : ErrorClass → String → titled_generic_error
  | .init_error => init_error
  | .mloop_error => mloop_error
  | .render_error => render_error
  | .networking_error => networking_error
  | .sdl_error => sdl_error
  | .opengl_error => opengl_error
  | .dirctx_error => dirctx_error
  | .vulkan_error => vulkan_error

/-- The virtual `title()`, dispatched on the dynamic class. -/
def titled_generic_error.title (e : titled_generic_error) : String :=
  match e.cls with
  | .init_error => "Init"
  | .mloop_error => "Main Loop"
  | .render_error => "Render"
  | .networking_error => "Networking"
  | .sdl_error => "SDL"
  | .opengl_error => "OpenGL"
  | .dirctx_error => "DirectX"
  | .vulkan_error => "Vulkan"

/-- The inherited `what()`. -/
def titled_generic_error.what (e : titled_generic_error) : String := e.base.what

/-! ## The world the presenter acts on -/

/-- A call that leaves the header: a toolkit primitive, the Windows API or the shell. -/
inductive ExtCall
  /-- The call `SDL_ShowSimpleMessageBox(SDL_MESSAGEBOX_ERROR, title, message, NULL)`. -/
  | SDL_ShowSimpleMessageBox (title message : String)
  /-- The statements `QMessageBox mb(QMessageBox::Critical, title, text, QMessageBox::Ok); mb.exec()`. -/
  | QMessageBox_exec (title text : String)
  /-- The call `MessageBoxA(NULL, text, caption, MB_OK | MB_ICONERROR)`. -/
  | MessageBoxA (text caption : String)
  /-- The call `system(command)`. -/
  | system (command : String)
deriving DecidableEq, Repr

/-- What an external call does: the `int` it returns and whether a dialog became visible
to the user. -/
structure Outcome where
  ret : Int
  shown : Bool
deriving DecidableEq, Repr

/-- Observable state: text written to standard output, pending standard input, the
external calls issued so far, and the number of dialogs that became visible. -/
structure World where
  stdout : String
  stdin : List Char
  calls : List ExtCall
  dialogs : Nat
deriving DecidableEq, Repr

/-- The collaborators outside the header: the reaction of the toolkit, operating system
or shell to a call, and the `ShowErrGUI` the user must supply under
`TLEXC_GUI_NOT_IMPELEMENTET`. -/
structure Env where
  respond : ExtCall → Outcome
  userGUI : String → String → World → Int × World

/-- Issue an external call: it is recorded, a dialog is counted when one became visible,
and the call's return value is handed back. -/
def invoke (env : Env) (c : ExtCall) (w : World) : Int × World :=
  ((env.respond c).ret,
   { w with calls := w.calls ++ [c],
            dialogs := if (env.respond c).shown then w.dialogs + 1 else w.dialogs })

/-! ## `printf` and `getchar` -/

/-- The part of `printf` formatting the header relies on: `%s` inserts the next C string
argument, `%%` is a percent sign, every other character is copied. -/
def format : List Char → List String → List Char
  | [], _ => []
  | [c], _ => [c]
  | c :: d :: fmt, args =>
    if c = '%' then
      if d = 's' then
        match args with
        | a :: args' => a.data ++ format fmt args'
        | [] => format fmt []
      else if d = '%' then '%' :: format fmt args
      else c :: format (d :: fmt) args
    else c :: format (d :: fmt) args

/-- The call `printf(fmt, args...)`: the formatted text is appended to standard output. -/
def printf (fmt : String) (args : List String) (w : World) : World :=
  { w with stdout := w.stdout ++ ⟨format fmt.data args⟩ }

/-- The value `EOF`. -/
def EOF : Int := -1

/-- The call `getchar()`: consumes one pending character and returns it, or returns `EOF` when no
input is left. -/
def getchar (w : World) : Int × World :=
  match w.stdin with
  | [] => (EOF, w)
  | c :: input => (c.toNat, { w with stdin := input })

/-! ## Error presenter (`tlexc.hpp` lines 133-216) -/

/-- The function `ShowErrConsole` (lines 133-136): `printf` of the block, then one
`getchar()` whose result is discarded. -/
def ShowErrConsole (_title _message : String) (w : World) : World :=
  let w := printf "An error has occurred!\n[%s Error]: %s\n\n\nPress ENTER to continue..."
    [_title, _message] w
  (getchar w).2

/-- The preprocessor symbols the implementation section tests. -/
structure Defines where
  TLEXC_GUI_NOT_IMPELEMENTET : Bool
  TLEXC_GUI_CONSOLE : Bool
  TLEXC_GUI_SDL2 : Bool
  TLEXC_GUI_QT : Bool
  _WIN32 : Bool
  __linux__ : Bool
  TLEXC_GUI_NO_HACKY : Bool
deriving DecidableEq, Repr

/-- The bodies of `ShowErrGUI`, one per branch of the `#if` chain (lines 138-203). -/
inductive Backend
  | not_implemented
  | console
  | sdl2
  | qt
  | win32
  | linux_zenity
  | no_gui
deriving DecidableEq, Repr

/-- The `#if / #elif / #else` chain of lines 138-203: the first branch whose condition
holds is compiled. -/
def selectBackend (d : Defines) : Backend :=
  if d.TLEXC_GUI_NOT_IMPELEMENTET then .not_implemented
  else if d.TLEXC_GUI_CONSOLE then .console
  else if d.TLEXC_GUI_SDL2 then .sdl2
  else if d.TLEXC_GUI_QT then .qt
  else if d._WIN32 then .win32
  else if d.__linux__ && !d.TLEXC_GUI_NO_HACKY then .linux_zenity
  else .no_gui

/-- The macro `#define L_ERRORBOX_COMMAND`. -/
def L_ERRORBOX_COMMAND : String := "zenity"

/-- The macro `#define L_ERRORBOX_ARG_BEFORE_TITLE`. -/
def L_ERRORBOX_ARG_BEFORE_TITLE : String := " --error --title="

/-- The macro `#define L_ERRORBOX_ARG_BEFORE_TEXT`. -/
def L_ERRORBOX_ARG_BEFORE_TEXT : String := " --text="

/-- The contents of `ss_cmd` after the insertions of lines 184-187. -/
def ss_cmd (_title _message : String) : String :=
  ((((((((("" ++ L_ERRORBOX_COMMAND)
    ++ L_ERRORBOX_ARG_BEFORE_TITLE).push '\"' ++ _title) ++ " Error\"")
    ++ L_ERRORBOX_ARG_BEFORE_TEXT).push '\"') ++ _message).push '\"')
    ++ " > /dev/null 2>&1")

/-- The function `ShowErrGUI`, by compiled branch. Under `TLEXC_GUI_NOT_IMPELEMENTET` the
header defines none and the user's is called. -/
def ShowErrGUI (b : Backend) (env : Env) (_title _message : String) (w : World) :
    Int × World :=
  match b with
  | .not_implemented => env.userGUI _title _message w
  | .console => (0, ShowErrConsole _title _message w)
  | .sdl2 => invoke env (.SDL_ShowSimpleMessageBox _title _message) w
  | .qt =>
    let r := invoke env (.QMessageBox_exec _title _message) w
    (0, r.2)
  | .win32 =>
    let ss_title := ("" ++ _title) ++ " Error"
    let r := invoke env (.MessageBoxA _message ss_title) w
    (0, r.2)
  | .linux_zenity =>
    let r := invoke env (.system (ss_cmd _title _message)) w
    if r.1 = 127 then (1, r.2) else (0, r.2)
  | .no_gui => (0, ShowErrConsole _title _message w)

/-- The overload `void ShowErr(const std::exception &_err, const char* const &_title = "None")`
(declaration lines 84-87, body lines 206-210). -/
def ShowErr (b : Backend) (env : Env) (w : World) (_err : exception)
    (_title : String := "None") : World :=
  let r := ShowErrGUI b env _title _err.what w
  if r.1 ≠ 0 then ShowErrConsole _title _err.what r.2 else r.2

/-- The overload `void ShowErr(const titled_generic_error &_err)` (lines 212-216). -/
def ShowErrTitled (b : Backend) (env : Env) (w : World) (_err : titled_generic_error) :
    World :=
  let r := ShowErrGUI b env _err.title _err.what w
  if r.1 ≠ 0 then ShowErrConsole _err.title _err.what r.2 else r.2

/-! ## Notions used to state the properties -/

/-- The console block for a title and a message, as one string. -/
def consoleBlock (t m : String) : String :=
  "An error has occurred!\n[" ++ t ++ " Error]: " ++ m ++ "\n\n\nPress ENTER to continue..."

/-- Reading and discarding one line, as the specification words it: everything up to and
including the first newline is removed. -/
def spec_discardLine : List Char → List Char
  | [] => []
  | c :: input => if c = '\n' then input else spec_discardLine input

/-- A world in which nothing has happened yet and no input is pending. -/
def World.initial : World := ⟨"", [], [], 0⟩

/-- The outcome the claims call "exactly one notification", read off the effects of a
call that turned world `w` into `w'`: either one more dialog became visible and nothing was
written to the console, or no dialog became visible and the console received exactly the
block for `t` and `m`. -/
def exactlyOneNotification (t m : String) (w w' : World) : Prop :=
  (w'.dialogs = w.dialogs + 1 ∧ w'.stdout = w.stdout) ∨
  (w'.dialogs = w.dialogs ∧ w'.stdout = w.stdout ++ consoleBlock t m)

instance (t m : String) (w w' : World) : Decidable (exactlyOneNotification t m w w') := by
  unfold exactlyOneNotification
  infer_instance

/-- An environment in which every external call has the outcome `o`, and the user-supplied
`ShowErrGUI` does nothing and returns `0`. -/
def Env.const (o : Outcome) : Env := ⟨fun _ => o, fun _ _ w => (0, w)⟩

/-- The characters that keep a special meaning to the shell inside double quotes: the
double quote, the backslash, the dollar sign and the backtick. -/
def shellActive (c : Char) : Bool :=
  c == Char.ofNat 34 || c == Char.ofNat 92 || c == Char.ofNat 36 || c == Char.ofNat 96

/-- A command line is plainly quoted when the only characters in it that are active inside
double quotes are four double quotes (the delimiters of the two quoted arguments). -/
def plainlyQuoted (cmd : String) : Prop :=
  cmd.data.filter shellActive
    = [Char.ofNat 34, Char.ofNat 34, Char.ofNat 34, Char.ofNat 34]

/-! ## Basic facts -/

theorem c_str_of_no_nul (s : String) (h : Char.ofNat 0 ∉ s.data) : c_str s = s := by
  unfold c_str
  apply String.ext
  show s.data.takeWhile (fun c => c != Char.ofNat 0) = s.data
  rw [List.takeWhile_eq_self_iff]
  intro c hc
  have : c ≠ Char.ofNat 0 := fun hz => h (hz ▸ hc)
  simpa using this

theorem format_console (t m : String) :
    format "An error has occurred!\n[%s Error]: %s\n\n\nPress ENTER to continue...".data [t, m]
      = (consoleBlock t m).data := by
  simp [format, consoleBlock, String.data_append]

theorem ShowErrConsole_stdout (t m : String) (w : World) :
    (ShowErrConsole t m w).stdout = w.stdout ++ consoleBlock t m := by
  have h : (printf "An error has occurred!\n[%s Error]: %s\n\n\nPress ENTER to continue..."
      [t, m] w).stdout = w.stdout ++ consoleBlock t m := by
    unfold printf
    rw [format_console]
  unfold ShowErrConsole getchar
  simp only []
  split <;> simpa using h

theorem ShowErrConsole_stdin (t m : String) (w : World) :
    (ShowErrConsole t m w).stdin = w.stdin.tail := by
  unfold ShowErrConsole getchar printf
  cases hw : w.stdin <;> simp [hw]

theorem ShowErrConsole_dialogs (t m : String) (w : World) :
    (ShowErrConsole t m w).dialogs = w.dialogs := by
  unfold ShowErrConsole getchar printf
  cases hw : w.stdin <;> simp [hw]

theorem ShowErrConsole_calls (t m : String) (w : World) :
    (ShowErrConsole t m w).calls = w.calls := by
  unfold ShowErrConsole getchar printf
  cases hw : w.stdin <;> simp [hw]

/-! ## C1: titles and messages of the taxonomy -/

/-- C1 (as stated, refuted): `what()` is a C string, so a message with an embedded NUL
character is not returned exactly: `init_error("a\0b").what()` is `"a"`. -/
theorem C1_what_not_exact_with_nul :
    (init_error "a\x00b").what = "a" ∧ (init_error "a\x00b").what ≠ "a\x00b" := by
  decide

/-- C1 (amended): for every message `m`, each of the eight error kinds has its fixed title
independently of `m`; `what()` is `m` read as a C string, that is `m` up to its first NUL
character, and hence exactly `m` whenever `m` contains no NUL character. -/
theorem C1_title_fixed_what_c_str (m : String) :
    ((init_error m).title = "Init" ∧ (mloop_error m).title = "Main Loop" ∧
      (render_error m).title = "Render" ∧ (networking_error m).title = "Networking" ∧
      (sdl_error m).title = "SDL" ∧ (opengl_error m).title = "OpenGL" ∧
      (dirctx_error m).title = "DirectX" ∧ (vulkan_error m).title = "Vulkan") ∧
    (∀ K : ErrorClass, (construct K m).what = c_str m) ∧
    (Char.ofNat 0 ∉ m.data → ∀ K : ErrorClass, (construct K m).what = m) := by
  have hw : ∀ K : ErrorClass, (construct K m).what = c_str m := by
    intro K
    cases K <;> rfl
  refine ⟨⟨rfl, rfl, rfl, rfl, rfl, rfl, rfl, rfl⟩, hw, ?_⟩
  intro h K
  rw [hw K, c_str_of_no_nul m h]

/-- C1 (amended), instance: a message with a newline, a quote and a percent sign. -/
theorem C1_title_fixed_what_c_str_witness :
    Char.ofNat 0 ∉ "line 1\nline \"2\" 100%".data ∧
    ∀ K : ErrorClass, (construct K "line 1\nline \"2\" 100%").what = "line 1\nline \"2\" 100%" :=
  ⟨by decide, (C1_title_fixed_what_c_str "line 1\nline \"2\" 100%").2.2 (by decide)⟩

/-! ## C9: the input consumed by `ShowErrConsole` -/

/-- C9 (as stated, refuted): with `"ab\ncd"` pending, `ShowErrConsole` leaves `"b\ncd"`,
not the `"cd"` that discarding one line would leave. -/
theorem C9_not_one_line :
    (ShowErrConsole "Init" "x" ⟨"", "ab\ncd".data, [], 0⟩).stdin = "b\ncd".data ∧
    spec_discardLine "ab\ncd".data = "cd".data ∧
    (ShowErrConsole "Init" "x" ⟨"", "ab\ncd".data, [], 0⟩).stdin
      ≠ spec_discardLine "ab\ncd".data := by
  decide

/-- C9 (amended): for every title, message and pending input, `ShowErrConsole`, after
writing the prompt, reads and discards at most one character: the input remaining is the
original input without its first character, and is empty when no input was pending. -/
theorem C9_one_character (t m : String) (w : World) :
    (ShowErrConsole t m w).stdout = w.stdout ++ consoleBlock t m ∧
    (ShowErrConsole t m w).stdin = w.stdin.drop 1 := by
  refine ⟨ShowErrConsole_stdout t m w, ?_⟩
  rw [ShowErrConsole_stdin]
  cases w.stdin <;> rfl

/-! ## C3: the console fallback -/

/-- C3: whenever `ShowErrGUI` reports failure for a title and a message, both overloads of
`ShowErr` call `ShowErrConsole` with the same title and message, and what `ShowErrConsole`
writes is exactly `"An error has occurred!\n[" ++ t ++ " Error]: " ++ m ++
"\n\n\nPress ENTER to continue..."`; a networking error with message "connection refused"
yields the block with `[Networking Error]: connection refused`. -/
theorem C3_console_fallback (b : Backend) (env : Env) (w : World) :
    (∀ (e : exception) (t : String), (ShowErrGUI b env t e.what w).1 ≠ 0 →
      ShowErr b env w e t = ShowErrConsole t e.what (ShowErrGUI b env t e.what w).2 ∧
      (ShowErr b env w e t).stdout = (ShowErrGUI b env t e.what w).2.stdout ++
        ("An error has occurred!\n[" ++ t ++ " Error]: " ++ e.what ++
          "\n\n\nPress ENTER to continue...")) ∧
    (∀ e : titled_generic_error, (ShowErrGUI b env e.title e.what w).1 ≠ 0 →
      ShowErrTitled b env w e
        = ShowErrConsole e.title e.what (ShowErrGUI b env e.title e.what w).2 ∧
      (ShowErrTitled b env w e).stdout = (ShowErrGUI b env e.title e.what w).2.stdout ++
        ("An error has occurred!\n[" ++ e.title ++ " Error]: " ++ e.what ++
          "\n\n\nPress ENTER to continue...")) ∧
    ((ShowErrGUI b env "Networking" "connection refused" w).1 ≠ 0 →
      (ShowErrTitled b env w (networking_error "connection refused")).stdout
        = (ShowErrGUI b env "Networking" "connection refused" w).2.stdout ++
          "An error has occurred!\n[Networking Error]: connection refused\n\n\nPress ENTER to continue...") := by
  have key : ∀ t m : String, (ShowErrGUI b env t m w).1 ≠ 0 →
      (if (ShowErrGUI b env t m w).1 ≠ 0 then ShowErrConsole t m (ShowErrGUI b env t m w).2
        else (ShowErrGUI b env t m w).2)
        = ShowErrConsole t m (ShowErrGUI b env t m w).2 := by
    intro t m h
    rw [if_pos h]
  refine ⟨?_, ?_, ?_⟩
  · intro e t h
    have h1 : ShowErr b env w e t
        = ShowErrConsole t e.what (ShowErrGUI b env t e.what w).2 := key t e.what h
    refine ⟨h1, ?_⟩
    rw [h1, ShowErrConsole_stdout]
    rfl
  · intro e h
    have h1 : ShowErrTitled b env w e
        = ShowErrConsole e.title e.what (ShowErrGUI b env e.title e.what w).2 :=
      key e.title e.what h
    refine ⟨h1, ?_⟩
    rw [h1, ShowErrConsole_stdout]
    rfl
  · intro h
    have h1 : ShowErrTitled b env w (networking_error "connection refused")
        = ShowErrConsole "Networking" "connection refused"
            (ShowErrGUI b env "Networking" "connection refused" w).2 :=
      key "Networking" "connection refused" h
    rw [h1, ShowErrConsole_stdout]
    congr 1

/-- C3, instance: the SDL backend whose primitive returns `-1`, on the networking error
with message "connection refused". -/
theorem C3_console_fallback_witness :
    (ShowErrGUI .sdl2 (Env.const ⟨-1, false⟩) "Networking" "connection refused"
      World.initial).1 ≠ 0 ∧
    (ShowErrTitled .sdl2 (Env.const ⟨-1, false⟩) World.initial
      (networking_error "connection refused")).stdout
      = (ShowErrGUI .sdl2 (Env.const ⟨-1, false⟩) "Networking" "connection refused"
          World.initial).2.stdout ++
        "An error has occurred!\n[Networking Error]: connection refused\n\n\nPress ENTER to continue..." :=
  ⟨by decide, (C3_console_fallback .sdl2 (Env.const ⟨-1, false⟩) World.initial).2.2
    (by decide)⟩

/-! ## C6: the default title -/

/-- C6: for every exception `e`, `ShowErr(e)` without a title argument is `ShowErr(e, "None")`:
`ShowErrGUI`, and `ShowErrConsole` on fallback, receive the title "None" and the message
`e.what()`. -/
theorem C6_default_title (b : Backend) (env : Env) (w : World) (e : exception) :
    ShowErr b env w e = ShowErr b env w e "None" ∧
    ShowErr b env w e =
      (if (ShowErrGUI b env "None" e.what w).1 ≠ 0
        then ShowErrConsole "None" e.what (ShowErrGUI b env "None" e.what w).2
        else (ShowErrGUI b env "None" e.what w).2) :=
  ⟨rfl, rfl⟩

/-! ## C5: the external helper reports failure on 127 only -/

/-- C5: with the Linux helper backend, for every title and message `ShowErrGUI` returns `1`
exactly when `system` returned `127` and returns `0` for every other value; `ShowErr`
therefore calls `ShowErrConsole`, with the same title and message, exactly when that
value is `127`. -/
theorem C5_helper_fails_iff_127 (env : Env) (w : World) (e : exception) (t : String) :
    ((ShowErrGUI .linux_zenity env t e.what w).1 = 1 ↔
      (env.respond (.system (ss_cmd t e.what))).ret = 127) ∧
    ((ShowErrGUI .linux_zenity env t e.what w).1 = 0 ↔
      (env.respond (.system (ss_cmd t e.what))).ret ≠ 127) ∧
    ShowErr .linux_zenity env w e t =
      (if (env.respond (.system (ss_cmd t e.what))).ret = 127
        then ShowErrConsole t e.what (invoke env (.system (ss_cmd t e.what)) w).2
        else (invoke env (.system (ss_cmd t e.what)) w).2) := by
  by_cases h : (env.respond (.system (ss_cmd t e.what))).ret = 127
  · simp [ShowErr, ShowErrGUI, invoke, h]
  · simp [ShowErr, ShowErrGUI, invoke, h]

/-- C5, instances: `system` returning `127` engages the console fallback, `system`
returning `256` does not. -/
theorem C5_helper_fails_iff_127_witness :
    (ShowErrGUI .linux_zenity (Env.const ⟨127, false⟩) "Init" "x" World.initial).1 = 1 ∧
    (ShowErrGUI .linux_zenity (Env.const ⟨256, false⟩) "Init" "x" World.initial).1 = 0 :=
  ⟨(C5_helper_fails_iff_127 (Env.const ⟨127, false⟩) World.initial ⟨"x"⟩ "Init").1.2
      (by decide),
   (C5_helper_fails_iff_127 (Env.const ⟨256, false⟩) World.initial ⟨"x"⟩ "Init").2.1.2
      (by decide)⟩

/-! ## C7: console-only configurations -/

/-- C7: when the compiled branch is the console one (`TLEXC_GUI_CONSOLE`) or the final
`#else` (no dialog mechanism, which is where Linux with `TLEXC_GUI_NO_HACKY` and no toolkit
ends up), `ShowErrGUI` has exactly the effects of `ShowErrConsole` on the same title and
message and returns `0`, and `ShowErr` prints the console block exactly once. -/
theorem C7_console_only (d : Defines) (env : Env) (w : World) (e : exception) (t : String)
    (h : selectBackend d = .console ∨ selectBackend d = .no_gui) :
    ShowErrGUI (selectBackend d) env t e.what w = (0, ShowErrConsole t e.what w) ∧
    ShowErr (selectBackend d) env w e t = ShowErrConsole t e.what w ∧
    (ShowErr (selectBackend d) env w e t).stdout = w.stdout ++ consoleBlock t e.what ∧
    (ShowErr (selectBackend d) env w e t).dialogs = w.dialogs ∧
    (ShowErr (selectBackend d) env w e t).calls = w.calls ∧
    (d.TLEXC_GUI_NOT_IMPELEMENTET = false → d.TLEXC_GUI_CONSOLE = true →
      selectBackend d = .console) ∧
    (d.TLEXC_GUI_NOT_IMPELEMENTET = false → d.TLEXC_GUI_CONSOLE = false →
      d.TLEXC_GUI_SDL2 = false → d.TLEXC_GUI_QT = false → d._WIN32 = false →
      (d.__linux__ = false ∨ d.TLEXC_GUI_NO_HACKY = true) → selectBackend d = .no_gui) := by
  have hg : ShowErrGUI (selectBackend d) env t e.what w = (0, ShowErrConsole t e.what w) := by
    rcases h with h | h <;> rw [h] <;> rfl
  have hs : ShowErr (selectBackend d) env w e t = ShowErrConsole t e.what w := by
    unfold ShowErr
    rw [hg]
    simp
  refine ⟨hg, hs, ?_, ?_, ?_, ?_, ?_⟩
  · rw [hs, ShowErrConsole_stdout]
  · rw [hs, ShowErrConsole_dialogs]
  · rw [hs, ShowErrConsole_calls]
  · intro h1 h2
    simp [selectBackend, h1, h2]
  · intro h1 h2 h3 h4 h5 h6
    rcases h6 with h6 | h6 <;> simp [selectBackend, h1, h2, h3, h4, h5, h6]

/-- C7, instance: Linux with `TLEXC_GUI_NO_HACKY` and no toolkit backend. -/
theorem C7_console_only_witness :
    selectBackend ⟨false, false, false, false, false, true, true⟩ = .no_gui ∧
    (ShowErr (selectBackend ⟨false, false, false, false, false, true, true⟩)
      (Env.const ⟨0, true⟩) World.initial ⟨"x"⟩ "Init").stdout
      = World.initial.stdout ++ consoleBlock "Init" "x" :=
  ⟨by decide, (C7_console_only ⟨false, false, false, false, false, true, true⟩
    (Env.const ⟨0, true⟩) World.initial ⟨"x"⟩ "Init" (Or.inr (by decide))).2.2.1⟩

/-! ## C8: the toolkit backends -/

/-- C8 (as stated, refuted): the Qt backend does not report on the basis of its
primitive's return. With the primitive returning `-1`, on which the SDL backend reports
failure, the Qt backend reports success; it reports the same for a return of `1024`. -/
theorem C8_qt_ignores_return :
    (invoke (Env.const ⟨-1, false⟩) (.QMessageBox_exec "Init" "x") World.initial).1 = -1 ∧
    (ShowErrGUI .sdl2 (Env.const ⟨-1, false⟩) "Init" "x" World.initial).1 = -1 ∧
    (ShowErrGUI .qt (Env.const ⟨-1, false⟩) "Init" "x" World.initial).1 = 0 ∧
    (ShowErrGUI .qt (Env.const ⟨1024, true⟩) "Init" "x" World.initial).1 = 0 := by
  decide

/-- C8 (amended): with the SDL backend `ShowErrGUI` issues exactly one call, the toolkit
primitive on (title, message), and returns that call's return value unchanged, so it
reports failure exactly when the value is non-zero. With the Qt backend `ShowErrGUI`
issues exactly one call, the toolkit primitive on (title, message), and returns `0`
whatever the primitive returned. -/
theorem C8_sdl_passes_qt_succeeds (env : Env) (t m : String) (w : World) :
    (ShowErrGUI .sdl2 env t m w).2.calls = w.calls ++ [.SDL_ShowSimpleMessageBox t m] ∧
    (ShowErrGUI .sdl2 env t m w).1 = (env.respond (.SDL_ShowSimpleMessageBox t m)).ret ∧
    (∀ e : exception, e.what = m →
      ShowErr .sdl2 env w e t =
        (if (env.respond (.SDL_ShowSimpleMessageBox t m)).ret ≠ 0
          then ShowErrConsole t m (ShowErrGUI .sdl2 env t m w).2
          else (ShowErrGUI .sdl2 env t m w).2)) ∧
    (ShowErrGUI .qt env t m w).2.calls = w.calls ++ [.QMessageBox_exec t m] ∧
    (ShowErrGUI .qt env t m w).1 = 0 ∧
    (∀ e : exception, e.what = m → ShowErr .qt env w e t = (ShowErrGUI .qt env t m w).2) := by
  refine ⟨rfl, rfl, ?_, rfl, rfl, ?_⟩
  · intro e he
    subst he
    rfl
  · intro e he
    subst he
    simp [ShowErr, ShowErrGUI]

/-- C8 (amended), instance: the SDL primitive returning `-1` makes `ShowErr` fall back to
the console; the Qt primitive returning `-1` does not. -/
theorem C8_sdl_passes_qt_succeeds_witness :
    (ShowErr .sdl2 (Env.const ⟨-1, false⟩) World.initial ⟨"x"⟩ "Init").stdout
      = consoleBlock "Init" "x" ∧
    (ShowErr .qt (Env.const ⟨-1, false⟩) World.initial ⟨"x"⟩ "Init").stdout = "" := by
  have h := C8_sdl_passes_qt_succeeds (Env.const ⟨-1, false⟩) "Init" "x" World.initial
  refine ⟨?_, ?_⟩
  · rw [h.2.2.1 ⟨"x"⟩ rfl]
    decide
  · rw [h.2.2.2.2.2 ⟨"x"⟩ rfl]
    decide

/-! ## C10: the command handed to the shell -/

theorem ss_cmd_data (t m : String) :
    (ss_cmd t m).data = "zenity --error --title=\"".data ++ t.data ++
      " Error\" --text=\"".data ++ m.data ++ "\" > /dev/null 2>&1".data := by
  simp [ss_cmd, L_ERRORBOX_COMMAND, L_ERRORBOX_ARG_BEFORE_TITLE, L_ERRORBOX_ARG_BEFORE_TEXT,
    String.data_append, String.data_push]

theorem ss_cmd_active (t m : String) :
    (ss_cmd t m).data.filter shellActive
      = Char.ofNat 34 :: (t.data.filter shellActive ++
          (Char.ofNat 34 :: Char.ofNat 34 :: (m.data.filter shellActive ++ [Char.ofNat 34]))) := by
  rw [ss_cmd_data]
  simp only [List.filter_append]
  have h1 : "zenity --error --title=\"".data.filter shellActive = [Char.ofNat 34] := by decide
  have h2 : " Error\" --text=\"".data.filter shellActive = [Char.ofNat 34, Char.ofNat 34] := by
    decide
  have h3 : "\" > /dev/null 2>&1".data.filter shellActive = [Char.ofNat 34] := by decide
  rw [h1, h2, h3]
  simp

/-- C10: with the Linux helper backend, for every title `t` and message `m` the one
external call is `system` on exactly
`"zenity --error --title=\"" ++ t ++ " Error\" --text=\"" ++ m ++ "\" > /dev/null 2>&1"`.
`t` and `m` are inserted unchanged: the characters of the command that are active inside
double quotes are the four delimiting quotes and, in between, those of `t` and of `m`, so
the command is plainly quoted exactly when `t` and `m` contain no double quote, backslash,
dollar sign or backtick. -/
theorem C10_zenity_command (env : Env) (t m : String) (w : World) :
    ss_cmd t m
      = "zenity --error --title=\"" ++ t ++ " Error\" --text=\"" ++ m ++ "\" > /dev/null 2>&1" ∧
    (ShowErrGUI .linux_zenity env t m w).2.calls = w.calls ++
      [.system ("zenity --error --title=\"" ++ t ++ " Error\" --text=\"" ++ m ++
        "\" > /dev/null 2>&1")] ∧
    (plainlyQuoted (ss_cmd t m) ↔
      (∀ c ∈ t.data, shellActive c = false) ∧ (∀ c ∈ m.data, shellActive c = false)) := by
  have hc : ss_cmd t m
      = "zenity --error --title=\"" ++ t ++ " Error\" --text=\"" ++ m ++
        "\" > /dev/null 2>&1" := by
    apply String.ext
    rw [ss_cmd_data]
    simp [String.data_append]
  refine ⟨hc, ?_, ?_⟩
  · rw [← hc]
    unfold ShowErrGUI invoke
    simp only []
    split <;> rfl
  · unfold plainlyQuoted
    rw [ss_cmd_active]
    constructor
    · intro h
      have hl := congrArg List.length h
      simp only [List.length_cons, List.length_append, List.length_nil] at hl
      have ht : (t.data.filter shellActive).length = 0 := by omega
      have hm : (m.data.filter shellActive).length = 0 := by omega
      rw [List.length_eq_zero, List.filter_eq_nil_iff] at ht hm
      exact ⟨fun c hc => by simpa using ht c hc, fun c hc => by simpa using hm c hc⟩
    · rintro ⟨ht, hm⟩
      have ht' : t.data.filter shellActive = [] := by
        rw [List.filter_eq_nil_iff]
        intro c hc
        simp [ht c hc]
      have hm' : m.data.filter shellActive = [] := by
        rw [List.filter_eq_nil_iff]
        intro c hc
        simp [hm c hc]
      rw [ht', hm']
      rfl

/-- C10, instances: a plain title and message give a plainly quoted command; a message
with double quotes does not. -/
theorem C10_zenity_command_witness :
    ss_cmd "Init" "disk full"
      = "zenity --error --title=\"Init Error\" --text=\"disk full\" > /dev/null 2>&1" ∧
    plainlyQuoted (ss_cmd "Init" "disk full") ∧
    ¬ plainlyQuoted (ss_cmd "Init" "say \"hi\"") := by
  have h1 := C10_zenity_command (Env.const ⟨0, true⟩) "Init" "disk full" World.initial
  have h2 := C10_zenity_command (Env.const ⟨0, true⟩) "Init" "say \"hi\"" World.initial
  refine ⟨h1.1, h1.2.2.2 (by decide), fun h => ?_⟩
  exact absurd ((h2.2.2.1 h).2 (Char.ofNat 34) (by decide)) (by decide)

/-! ## C2: exactly one notification -/

/-- C2 (the code falls short of it): with the Linux helper backend and the helper program
missing, the shell exits with status 127 and `system` returns the wait status `32512`
(127 * 256) without any dialog becoming visible. The comparison with `127` on line 190
does not hold, so `ShowErrGUI` returns `0`, and neither overload of `ShowErr` writes
anything to the console: the one external call is made, no dialog is visible and the
console is untouched, which is not exactly one notification. -/
theorem C2_missing_helper_unnotified :
    (invoke (Env.const ⟨32512, false⟩) (.system (ss_cmd "Networking" "connection refused"))
      World.initial).1 = 32512 ∧
    (ShowErrGUI .linux_zenity (Env.const ⟨32512, false⟩) "Networking" "connection refused"
      World.initial).1 = 0 ∧
    ShowErrTitled .linux_zenity (Env.const ⟨32512, false⟩) World.initial
      (networking_error "connection refused")
      = ⟨"", [], [.system (ss_cmd "Networking" "connection refused")], 0⟩ ∧
    ShowErr .linux_zenity (Env.const ⟨32512, false⟩) World.initial
      (runtime_error "connection refused") "Networking"
      = ⟨"", [], [.system (ss_cmd "Networking" "connection refused")], 0⟩ ∧
    ¬ exactlyOneNotification "Networking" "connection refused" World.initial
      (ShowErrTitled .linux_zenity (Env.const ⟨32512, false⟩) World.initial
        (networking_error "connection refused")) ∧
    ¬ exactlyOneNotification "Networking" "connection refused" World.initial
      (ShowErr .linux_zenity (Env.const ⟨32512, false⟩) World.initial
        (runtime_error "connection refused") "Networking") := by
  decide

/-! ## C4: no console fallback after a successful `ShowErrGUI` -/

/-- C4 (as stated, refuted): in the console-only branch `ShowErrGUI` always reports
success, and `ShowErr` does produce console output. -/
theorem C4_console_only_prints :
    (∀ (env : Env) (t m : String) (w : World), (ShowErrGUI .console env t m w).1 = 0) ∧
    (ShowErrTitled .console (Env.const ⟨0, false⟩) World.initial (init_error "x")).stdout
      = "An error has occurred!\n[Init Error]: x\n\n\nPress ENTER to continue..." ∧
    (ShowErrTitled .console (Env.const ⟨0, false⟩) World.initial (init_error "x")).stdout
      ≠ World.initial.stdout :=
  ⟨fun _ _ _ _ => rfl, by decide, by decide⟩

/-- C4 (amended): for every error and every backend configuration in which `ShowErrGUI`
always reports success, `ShowErr` never calls the console fallback: its effects are those
of `ShowErrGUI` alone. Hence it produces no console output with the SDL, Qt, Windows and
Linux helper backends, and with the console-only branches exactly the one console block
that `ShowErrGUI` itself prints. -/
theorem C4_no_fallback_after_success (b : Backend) (env : Env)
    (h : ∀ (t m : String) (w : World), (ShowErrGUI b env t m w).1 = 0)
    (w : World) :
    (∀ (e : exception) (t : String),
      ShowErr b env w e t = (ShowErrGUI b env t e.what w).2 ∧
      (b = .sdl2 ∨ b = .qt ∨ b = .win32 ∨ b = .linux_zenity →
        (ShowErr b env w e t).stdout = w.stdout) ∧
      (b = .console ∨ b = .no_gui →
        (ShowErr b env w e t).stdout = w.stdout ++ consoleBlock t e.what)) ∧
    (∀ e : titled_generic_error,
      ShowErrTitled b env w e = (ShowErrGUI b env e.title e.what w).2 ∧
      (b = .sdl2 ∨ b = .qt ∨ b = .win32 ∨ b = .linux_zenity →
        (ShowErrTitled b env w e).stdout = w.stdout) ∧
      (b = .console ∨ b = .no_gui →
        (ShowErrTitled b env w e).stdout = w.stdout ++ consoleBlock e.title e.what)) := by
  have key : ∀ t m : String,
      (if (ShowErrGUI b env t m w).1 ≠ 0 then ShowErrConsole t m (ShowErrGUI b env t m w).2
        else (ShowErrGUI b env t m w).2) = (ShowErrGUI b env t m w).2 := by
    intro t m
    rw [if_neg (not_not.mpr (h t m w))]
  have hd : ∀ t m : String, b = .sdl2 ∨ b = .qt ∨ b = .win32 ∨ b = .linux_zenity →
      (ShowErrGUI b env t m w).2.stdout = w.stdout := by
    intro t m hb
    rcases hb with hb | hb | hb | hb <;> subst hb
    · rfl
    · rfl
    · rfl
    · simp only [ShowErrGUI, invoke]
      split <;> rfl
  have hc : ∀ t m : String, b = .console ∨ b = .no_gui →
      (ShowErrGUI b env t m w).2.stdout = w.stdout ++ consoleBlock t m := by
    intro t m hb
    rcases hb with hb | hb <;> subst hb <;> exact ShowErrConsole_stdout t m w
  refine ⟨?_, ?_⟩
  · intro e t
    have h1 : ShowErr b env w e t = (ShowErrGUI b env t e.what w).2 := key t e.what
    exact ⟨h1, fun hb => by rw [h1]; exact hd t e.what hb,
      fun hb => by rw [h1]; exact hc t e.what hb⟩
  · intro e
    have h1 : ShowErrTitled b env w e = (ShowErrGUI b env e.title e.what w).2 :=
      key e.title e.what
    exact ⟨h1, fun hb => by rw [h1]; exact hd e.title e.what hb,
      fun hb => by rw [h1]; exact hc e.title e.what hb⟩

/-- C4 (amended), instance: the Qt backend always reports success, and `ShowErr` on it
writes nothing to the console. -/
theorem C4_no_fallback_after_success_witness :
    (∀ (t m : String) (w : World), (ShowErrGUI .qt (Env.const ⟨1024, true⟩) t m w).1 = 0) ∧
    (ShowErrTitled .qt (Env.const ⟨1024, true⟩) World.initial (init_error "x")).stdout
      = World.initial.stdout :=
  ⟨fun _ _ _ => rfl,
   ((C4_no_fallback_after_success .qt (Env.const ⟨1024, true⟩) (fun _ _ _ => rfl)
      World.initial).2 (init_error "x")).2.1 (Or.inr (Or.inl rfl))⟩

end TLEXC
